import Mathlib

/-!
Shallow embedding of `Lib/special/special.py` (scipy special-function module,
Travis Oliphant, 2002).

The module has two parts: the `general_function` broadcasting adapter, and a
catalog of thin validation wrappers around external numerical routines
(`cephes`, `specfun`, `scipy_base`).  External routines (`jv`, `ndtri`,
`sqrt`, `sin`, `specfun.jdzo`, `specfun.fcoef`, ...) are collaborators outside
this module; they are embedded as explicit function parameters, so every
definition here stays computable.  Numbers are modelled as rationals.

The adapter's element-wise kernel `arraymap` and the `squeeze` helper live in
compiled companion modules of the repository that are not part of this file's
source; they are modelled from the specification (see their doc comments).
-/

namespace SpecialPy

/-- `DomainError`: a catalog wrapper's input fails a stated precondition
(raised as `ValueError` in the source). -/
inductive DomainError where
  | mk
deriving DecidableEq

/-- `BroadcastError`: argument shapes cannot be unified under broadcasting. -/
inductive BroadcastError where
  | mk
deriving DecidableEq

/-- `ConfigurationError`: the adapter was constructed with a non-callable
object (`TypeError` in the source) or a malformed output-type tag
(`ValueError` in the source). -/
inductive ConfigError where
  | notCallable
  | badOtypes
deriving DecidableEq

/-- A multidimensional array: a shape and the element data in row-major
order.  Scalars are rank-0 arrays (`shape = []`, one data element). -/
structure Arr (α : Type) where
  shape : List ℕ
  data : List α
deriving DecidableEq

/-- Modelled from the spec: one dimension of the broadcasting rule — sizes
must be equal or one of them must be 1 (the size-1 side stretches). -/
def broadcastDim (a b : ℕ) : Option ℕ :=
  if a = b then some a
  else if a = 1 then some b
  else if b = 1 then some a
  else none

/-- Pad a shape on the left with 1s up to length `n` (missing leading
dimensions are treated as size 1). -/
def padShape (s : List ℕ) (n : ℕ) : List ℕ :=
  List.replicate (n - s.length) 1 ++ s

/-- Modelled from the spec: combine two equal-length shapes dimension-wise,
failing if any dimension pair is incompatible. -/
def zipBroadcast : List ℕ → List ℕ → Option (List ℕ)
  | [], [] => some []
  | a :: as, b :: bs => do
      let d ← broadcastDim a b
      let rest ← zipBroadcast as bs
      pure (d :: rest)
  | _, _ => none

/-- Modelled from the spec: the broadcast shape of two shapes, or `none`
when they are incompatible. -/
def broadcastShape (sa sb : List ℕ) : Option (List ℕ) :=
  let n := max sa.length sb.length
  zipBroadcast (padShape sa n) (padShape sb n)

/-- Modelled from the spec: enumerate every coordinate of a shape in
row-major (lexicographic, last index fastest) order. -/
def coords : List ℕ → List (List ℕ)
  | [] => [[]]
  | d :: ds => (List.range d).flatMap (fun i => (coords ds).map (fun c => i :: c))

/-- Row-major flat index of broadcast coordinate `c` into an array of shape
`s`: extra leading coordinates are dropped, and index 0 is used along any
dimension where the array's size is 1 (the stretch rule). -/
def bcastIndex (s : List ℕ) (c : List ℕ) : ℕ :=
  let cTail := c.drop (c.length - s.length)
  (s.zip cTail).foldl (fun acc p => acc * p.1 + (if p.1 = 1 then 0 else p.2)) 0

/-- Element of `a` selected for broadcast coordinate `c`. -/
def bcastGet [Inhabited α] (a : Arr α) (c : List ℕ) : α :=
  a.data.getD (bcastIndex a.shape c) default

/-- Result of an adapter call: either a plain scalar or an array. -/
inductive GResult (α : Type) where
  | scalar (x : α)
  | array (a : Arr α)
deriving DecidableEq

/-- Modelled from the spec: `scipy_base.squeeze` — remove trivial (size-1)
dimensions; a rank-0 result is returned as a plain scalar value, not a
rank-0 array. -/
def squeeze [Inhabited α] (a : Arr α) : GResult α :=
  let sh := a.shape.filter (fun d => d ≠ 1)
  if sh.isEmpty then GResult.scalar (a.data.getD 0 default)
  else GResult.array ⟨sh, a.data⟩

/-- Modelled from the spec: `arraymap(f, (a, b), otypes)` for a scalar
function of two arguments — compute the broadcast shape of the two argument
arrays (failing with `BroadcastError` when incompatible), evaluate `f` on
the selected element pair at every coordinate in row-major order, and
assemble the results into an array of the broadcast shape. -/
def arraymap [Inhabited α] (f : α → α → α) (a b : Arr α) :
    Except BroadcastError (Arr α) :=
  match broadcastShape a.shape b.shape with
  | none => Except.error BroadcastError.mk
  | some sh =>
      Except.ok ⟨sh, (coords sh).map (fun c => f (bcastGet a c) (bcastGet b c))⟩

/-- `general_function.__call__` for a two-argument wrapped function:
`squeeze(arraymap(self.thefunc, args, self.otypes))`. -/
def general_function_call [Inhabited α] (f : α → α → α) (a b : Arr α) :
    Except BroadcastError (GResult α) :=
  (arraymap f a b).map squeeze

/-- The example scalar function from the `general_function` docstring:
`a - b` when `a > b`, else `a + b`. -/
def myfunc (a b : ℤ) : ℤ := if a > b then a - b else a + b

/-- A Python argument value as seen by the catalog validators: a numeric
value plus whether it is a scalar (`scipy_base.isscalar`). -/
structure PyVal where
  isScalar : Bool
  val : ℚ
deriving DecidableEq

/-- Python `int(x)`: truncation toward zero. -/
def pyint (x : ℚ) : ℤ := if 0 ≤ x then ⌊x⌋ else ⌈x⌉

/-- Python `l[:k]`: the first `k` elements, counting from the end when `k`
is negative. -/
def pySlice (l : List α) (k : ℤ) : List α :=
  if 0 ≤ k then l.take k.toNat else l.take (l.length - (-k).toNat)

/-- `sinc(x) = where(x == 0, 1.0, sin(x*pi)/(x*pi))`, with the external
elementary routines `sin` and the constant `pi` as parameters.  Division by
zero never reaches the result: the `where` selects `1.0` at `x = 0`. -/
def sinc (sin : ℚ → ℚ) (pi : ℚ) (x : ℚ) : ℚ :=
  if x = 0 then 1 else sin (x * pi) / (x * pi)

/-- `sinc` applied element-wise over an array of points, as the `where`
construction does. -/
def sincArr (sin : ℚ → ℚ) (pi : ℚ) (xs : List ℚ) : List ℚ :=
  xs.map (sinc sin pi)

/-- The shared recursion of the derivative wrappers, after validation:
order `0` is the base special function `F` itself; order `n+1` is
`(F_{v-1}(z, n) - F_{v+1}(z, n)) / 2`. -/
def derivRec (F : ℚ → ℚ → ℚ) (v z : ℚ) : ℕ → ℚ
  | 0 => F v z
  | n + 1 => (derivRec F (v - 1) z n - derivRec F (v + 1) z n) / 2

/-- The common body of `jvp`/`yvp`/`kvp`/`ivp`/`h1vp`/`h2vp`: reject `n`
that is negative (`n` being an `ℤ` models the `types.IntType` check), then
run the recurrence. -/
def derivWrap (F : ℚ → ℚ → ℚ) (v z : ℚ) (n : ℤ) : Except DomainError ℚ :=
  if n < 0 then Except.error DomainError.mk
  else Except.ok (derivRec F v z n.toNat)

/-- `jvp(v, z, n)`: nth derivative of `Jv(z)`; the base routine `jv` is the
external `cephes.jv`. -/
def jvp (jv : ℚ → ℚ → ℚ) (v z : ℚ) (n : ℤ) : Except DomainError ℚ :=
  derivWrap jv v z n

/-- `yvp(v, z, n)`: nth derivative of `Yv(z)` over external `yv`. -/
def yvp (yv : ℚ → ℚ → ℚ) (v z : ℚ) (n : ℤ) : Except DomainError ℚ :=
  derivWrap yv v z n

/-- `kvp(v, z, n)`: nth derivative of `Kv(z)` over external `kv`. -/
def kvp (kv : ℚ → ℚ → ℚ) (v z : ℚ) (n : ℤ) : Except DomainError ℚ :=
  derivWrap kv v z n

/-- `ivp(v, z, n)`: nth derivative of `Iv(z)` over external `iv`. -/
def ivp (iv : ℚ → ℚ → ℚ) (v z : ℚ) (n : ℤ) : Except DomainError ℚ :=
  derivWrap iv v z n

/-- `h1vp(v, z, n)`: nth derivative of `H1v(z)` over external `hankel1`. -/
def h1vp (hankel1 : ℚ → ℚ → ℚ) (v z : ℚ) (n : ℤ) : Except DomainError ℚ :=
  derivWrap hankel1 v z n

/-- `h2vp(v, z, n)`: nth derivative of `H2v(z)` over external `hankel2`. -/
def h2vp (hankel2 : ℚ → ℚ → ℚ) (v z : ℚ) (n : ℤ) : Except DomainError ℚ :=
  derivWrap hankel2 v z n

/-- `erfinv(y) = ndtri((y+1)/2.0)/sqrt(2)` with the external normal
quantile `ndtri` and elementary `sqrt` as parameters. -/
def erfinv (ndtri : ℚ → ℚ) (sqrt : ℚ → ℚ) (y : ℚ) : ℚ :=
  ndtri ((y + 1) / 2) / sqrt 2

/-- `erfcinv(y) = ndtri((2-y)/2.0)/sqrt(2)`. -/
def erfcinv (ndtri : ℚ → ℚ) (sqrt : ℚ → ℚ) (y : ℚ) : ℚ :=
  ndtri ((2 - y) / 2) / sqrt 2

/-- `gammaincinv(a, y) = gammainccinv(a, 1-y)`, delegating with no
validation; the external `cephes.gammainccinv` is a parameter. -/
def gammaincinv (gammainccinv : ℚ → ℚ → ℚ) (a y : ℚ) : ℚ :=
  gammainccinv a (1 - y)

/-- `jnjnp_zeros(nt)`: reject `nt` not scalar, not integer-valued, or
greater than 1400; otherwise delegate `specfun.jdzo(int(nt))`.  The routine
is a parameter with opaque result type `R`. -/
def jnjnp_zeros (jdzo : ℤ → R) (nt : PyVal) : Except DomainError R :=
  if ¬nt.isScalar ∨ (⌊nt.val⌋ : ℚ) ≠ nt.val ∨ nt.val > 1400 then
    Except.error DomainError.mk
  else Except.ok (jdzo ⌊nt.val⌋)

/-- `erf_zeros(nt)`: reject `nt` not integer-valued, not positive, or not
scalar (the source checks in that order); delegate `specfun.cerzo(nt)`. -/
def erf_zeros (cerzo : ℚ → R) (nt : PyVal) : Except DomainError R :=
  if (⌊nt.val⌋ : ℚ) ≠ nt.val ∨ nt.val ≤ 0 ∨ ¬nt.isScalar then
    Except.error DomainError.mk
  else Except.ok (cerzo nt.val)

/-- `ai_zeros(nt)`: positive scalar integer required; delegate
`specfun.airyzo(nt, 1)`. -/
def ai_zeros (airyzo : ℚ → ℤ → R) (nt : PyVal) : Except DomainError R :=
  if ¬nt.isScalar ∨ (⌊nt.val⌋ : ℚ) ≠ nt.val ∨ nt.val ≤ 0 then
    Except.error DomainError.mk
  else Except.ok (airyzo nt.val 1)

/-- `bi_zeros(nt)`: positive scalar integer required; delegate
`specfun.airyzo(nt, 2)`. -/
def bi_zeros (airyzo : ℚ → ℤ → R) (nt : PyVal) : Except DomainError R :=
  if ¬nt.isScalar ∨ (⌊nt.val⌋ : ℚ) ≠ nt.val ∨ nt.val ≤ 0 then
    Except.error DomainError.mk
  else Except.ok (airyzo nt.val 2)

/-- The shared body of the eight kelvin `_zeros` wrappers (`ber_zeros` ...
`keip_zeros`): positive scalar integer required; delegate
`specfun.klvnzo(nt, k)` with the function selector `k`. -/
def kelvin_zeros_k (klvnzo : ℚ → ℤ → R) (k : ℤ) (nt : PyVal) :
    Except DomainError R :=
  if ¬nt.isScalar ∨ (⌊nt.val⌋ : ℚ) ≠ nt.val ∨ nt.val ≤ 0 then
    Except.error DomainError.mk
  else Except.ok (klvnzo nt.val k)

/-- `ber_zeros(nt) = klvnzo(nt, 1)` after validation. -/
def ber_zeros (klvnzo : ℚ → ℤ → R) (nt : PyVal) : Except DomainError R :=
  kelvin_zeros_k klvnzo 1 nt

/-- `bei_zeros(nt) = klvnzo(nt, 2)` after validation. -/
def bei_zeros (klvnzo : ℚ → ℤ → R) (nt : PyVal) : Except DomainError R :=
  kelvin_zeros_k klvnzo 2 nt

/-- `ker_zeros(nt) = klvnzo(nt, 3)` after validation. -/
def ker_zeros (klvnzo : ℚ → ℤ → R) (nt : PyVal) : Except DomainError R :=
  kelvin_zeros_k klvnzo 3 nt

/-- `kei_zeros(nt) = klvnzo(nt, 4)` after validation. -/
def kei_zeros (klvnzo : ℚ → ℤ → R) (nt : PyVal) : Except DomainError R :=
  kelvin_zeros_k klvnzo 4 nt

/-- `y0_zeros(nt, complex=1)`: positive scalar integer required; delegate
`specfun.cyzo(nt, 0, complex != 1)`. -/
def y0_zeros (cyzo : ℚ → ℤ → Bool → R) (nt : PyVal) (cplx : ℚ) :
    Except DomainError R :=
  if ¬nt.isScalar ∨ (⌊nt.val⌋ : ℚ) ≠ nt.val ∨ nt.val ≤ 0 then
    Except.error DomainError.mk
  else Except.ok (cyzo nt.val 0 (cplx ≠ 1))

/-- A Python object as seen by `general_function.__init__`: whether it is
callable, whether it is an (old-style) class object, and its `__doc__`. -/
structure PyFunc where
  callable : Bool
  isClass : Bool
  doc : Option String
deriving DecidableEq

/-- The `otypes` argument of `general_function.__init__`: `None`, a string,
or some non-string value. -/
inductive OTypeArg where
  | none
  | str (s : String)
  | nonString
deriving DecidableEq

/-- The adapter state produced by a successful construction: the resolved
documentation string and output-type string (`self.__doc__`, `self.otypes`). -/
structure GFState where
  doc : Option String
  otypes : String
deriving DecidableEq

/-- `general_function.__init__(pyfunc, otypes=None, doc=None)`: reject a
non-callable or class object; default the documentation to the wrapped
callable's own `__doc__`; accept `otypes` only when absent or a string. -/
def general_function_init (pyfunc : PyFunc) (otypes : OTypeArg)
    (doc : Option String) : Except ConfigError GFState :=
  if ¬pyfunc.callable ∨ pyfunc.isClass then Except.error ConfigError.notCallable
  else
    let d := match doc with
      | Option.none => pyfunc.doc
      | Option.some s => Option.some s
    match otypes with
    | OTypeArg.none => Except.ok ⟨d, ""⟩
    | OTypeArg.str s => Except.ok ⟨d, s⟩
    | OTypeArg.nonString => Except.error ConfigError.badOtypes

/-- The empirical truncation-length estimate shared by the mathieu
coefficient wrappers, branching on `q <= 1`; the elementary `sqrt` is a
parameter. -/
def mathieu_qm (sqrt : ℚ → ℚ) (q : ℚ) : ℚ :=
  if q ≤ 1 then 7.5 + 56.1 * sqrt q - 134.7 * q + 90.7 * sqrt q * q
  else 17.0 + 3.1 * sqrt q - 0.126 * q + 0.0037 * sqrt q * q

/-- `mathieu_even_coef(m, q)`: validate (`m`,`q` scalars, `q >= 0`, `m` a
non-negative integer), estimate `km = int(qm + 0.5*m)`, warn (non-fatally)
when `km > 251`, pick the discriminant code `kd` from the parity of the
truncated `m` (1 for even, 2 for odd), and return the warning flag together
with the first `km` coefficients `specfun.fcoef(kd, m, q, mathieu_a(m,q))[:km]`.
External `mathieu_a` and `specfun.fcoef` are parameters. -/
def mathieu_even_coef (sqrt : ℚ → ℚ) (mathieu_a : ℤ → ℚ → ℚ)
    (fcoef : ℤ → ℤ → ℚ → ℚ → List ℚ) (m q : PyVal) :
    Except DomainError (Bool × List ℚ) :=
  if ¬(m.isScalar ∧ q.isScalar) then Except.error DomainError.mk
  else if q.val < 0 then Except.error DomainError.mk
  else if m.val ≠ ⌊m.val⌋ ∨ m.val < 0 then Except.error DomainError.mk
  else
    let qm := mathieu_qm sqrt q.val
    let km := pyint (qm + 0.5 * m.val)
    let warned := decide (km > 251)
    let mi := ⌊m.val⌋
    let kd : ℤ := if mi % 2 ≠ 0 then 2 else 1
    let a := mathieu_a mi q.val
    Except.ok (warned, pySlice (fcoef kd mi q.val a) km)

/-- `mathieu_odd_coef(m, q)`: same as the even wrapper except `m` must be a
positive integer, the discriminant code is 4 for even `m` and 3 for odd,
and the delegate pair is `mathieu_b` and `specfun.fcoef` (spelled
`specfunc.fcoef` in the source, a known typo for the same routine). -/
def mathieu_odd_coef (sqrt : ℚ → ℚ) (mathieu_b : ℤ → ℚ → ℚ)
    (fcoef : ℤ → ℤ → ℚ → ℚ → List ℚ) (m q : PyVal) :
    Except DomainError (Bool × List ℚ) :=
  if ¬(m.isScalar ∧ q.isScalar) then Except.error DomainError.mk
  else if q.val < 0 then Except.error DomainError.mk
  else if m.val ≠ ⌊m.val⌋ ∨ m.val ≤ 0 then Except.error DomainError.mk
  else
    let qm := mathieu_qm sqrt q.val
    let km := pyint (qm + 0.5 * m.val)
    let warned := decide (km > 251)
    let mi := ⌊m.val⌋
    let kd : ℤ := if mi % 2 ≠ 0 then 3 else 4
    let b := mathieu_b mi q.val
    Except.ok (warned, pySlice (fcoef kd mi q.val b) km)

end SpecialPy

namespace SpecialPy

/-- Claim C1: for every pair of scalar (rank-0) inputs `a` and `b` and every
deterministic scalar function `Fn` of two arguments, the broadcasting
adapter `general_function(Fn)` called on `(a, b)` returns exactly
`Fn(a, b)` as a plain scalar value, not wrapped in a rank-0 array. -/
theorem claim_C1 {α : Type} [Inhabited α] (f : α → α → α) (a b : Arr α)
    (x y : α) (ha : a.shape = []) (hxa : a.data = [x])
    (hb : b.shape = []) (hyb : b.data = [y]) :
    general_function_call f a b = Except.ok (GResult.scalar (f x y)) := by
  obtain ⟨sa, da⟩ := a
  obtain ⟨sb, db⟩ := b
  simp only at ha hxa hb hyb
  subst ha hxa hb hyb
  rfl

/-- Witness for C1 at concrete scalars `3` and `4` with integer addition. -/
theorem claim_C1_witness :
    general_function_call (fun a b : ℤ => a + b) ⟨[], [3]⟩ ⟨[], [4]⟩ =
      Except.ok (GResult.scalar 7) := by
  exact claim_C1 (fun a b : ℤ => a + b) ⟨[], [3]⟩ ⟨[], [4]⟩ 3 4 rfl rfl rfl rfl

/-- Claim C2: wrapping `Fn(a,b) = a-b if a>b else a+b` and calling with
`([1,2,3,4], 2)` stretches the scalar 2 across all four positions and
returns `[3,4,1,2]`, the elements being assembled in row-major enumeration
order of the broadcast shape `(4,)` (the coordinate list `[0],[1],[2],[3]`). -/
theorem claim_C2 :
    general_function_call myfunc ⟨[4], [1, 2, 3, 4]⟩ ⟨[], [2]⟩ =
        Except.ok (GResult.array ⟨[4], [3, 4, 1, 2]⟩) ∧
      coords [4] = [[0], [1], [2], [3]] := by
  constructor
  · rfl
  · rfl

/-- Claim C3: whenever two argument arrays have shapes that are incompatible
under the broadcasting rules, the adapter call fails with `BroadcastError`
and no output array is returned (the result is the bare error, for every
wrapped function); in particular shapes `(3,)` and `(4,)` are incompatible. -/
theorem claim_C3 :
    (∀ (α : Type) [Inhabited α] (f : α → α → α) (a b : Arr α),
        broadcastShape a.shape b.shape = none →
        general_function_call f a b = Except.error BroadcastError.mk) ∧
      broadcastShape [3] [4] = none := by
  constructor
  · intro α _ f a b h
    simp only [general_function_call, arraymap, h]
    rfl
  · rfl

/-- Witness for C3 at concrete arrays of shapes `(3,)` and `(4,)`. -/
theorem claim_C3_witness :
    general_function_call (fun a b : ℤ => a + b) ⟨[3], [0, 0, 0]⟩
        ⟨[4], [0, 0, 0, 0]⟩ = Except.error BroadcastError.mk := by
  exact claim_C3.1 ℤ (fun a b : ℤ => a + b) ⟨[3], [0, 0, 0]⟩
    ⟨[4], [0, 0, 0, 0]⟩ rfl

/-- Claim C4: `sinc(0)` equals exactly `1.0`, and for every nonzero `x`
(negative values included) `sinc(x) = sin(pi*x)/(pi*x)`; over an array the
function applies element-wise. -/
theorem claim_C4 (sin : ℚ → ℚ) (pi : ℚ) :
    sinc sin pi 0 = 1 ∧
      (∀ x : ℚ, x ≠ 0 → sinc sin pi x = sin (pi * x) / (pi * x)) ∧
      (∀ (xs : List ℚ) (i : ℕ),
        (sincArr sin pi xs)[i]? = (xs[i]?).map (sinc sin pi)) := by
  refine ⟨rfl, ?_, ?_⟩
  · intro x hx
    simp only [sinc, if_neg hx, mul_comm]
  · intro xs i
    simp [sincArr]

/-- Witness for C4 at the nonzero point `x = 2` with `sin` the identity and
`pi = 1`. -/
theorem claim_C4_witness :
    sinc (fun t => t) 1 2 = (1 * 2 : ℚ) / (1 * 2) := by
  exact (claim_C4 (fun t => t) 1).2.1 2 (by norm_num)

/-- The three facts of claim C5, proved once for the shared wrapper body:
order 0 is the base function, order `n ≥ 1` is the halved difference of the
two order-`n-1` values, and order 2 is the expanded four-term combination. -/
lemma derivWrap_props (F : ℚ → ℚ → ℚ) (v z : ℚ) :
    derivWrap F v z 0 = Except.ok (F v z) ∧
      (∀ (n : ℤ) (a b : ℚ), 1 ≤ n →
        derivWrap F (v - 1) z (n - 1) = Except.ok a →
        derivWrap F (v + 1) z (n - 1) = Except.ok b →
        derivWrap F v z n = Except.ok ((a - b) / 2)) ∧
      derivWrap F v z 2 =
        Except.ok ((F (v - 2) z - 2 * F v z + F (v + 2) z) / 4) := by
  refine ⟨rfl, ?_, ?_⟩
  · intro n a b hn ha hb
    have hn0 : ¬n < 0 := by omega
    have hn1 : ¬n - 1 < 0 := by omega
    have ht : n.toNat = (n - 1).toNat + 1 := by omega
    simp only [derivWrap, if_neg hn1, Except.ok.injEq] at ha hb
    simp only [derivWrap, if_neg hn0, ht, derivRec, ha, hb]
  · have e1 : v - 1 - 1 = v - 2 := by ring
    have e2 : v - 1 + 1 = v := by ring
    have e3 : v + 1 - 1 = v := by ring
    have e4 : v + 1 + 1 = v + 2 := by ring
    show Except.ok (derivRec F v z 2) = _
    simp only [derivRec, e1, e2, e3, e4]
    exact congrArg Except.ok (by ring)

/-- Claim C5: each of the derivative-recurrence wrappers `jvp`, `yvp`,
`kvp`, `ivp`, `h1vp`, `h2vp` returns at `n = 0` exactly its base special
function's value; at `n ≥ 1` its value is
`(F(v-1, z, n-1) - F(v+1, z, n-1)) / 2`; and at `n = 2` it equals the fully
expanded four-term combination `(F(v-2,z) - 2*F(v,z) + F(v+2,z)) / 4`.  The
base routine is universally quantified, covering all six external bases. -/
theorem claim_C5 (F : ℚ → ℚ → ℚ) (v z : ℚ) :
    (jvp F v z 0 = Except.ok (F v z) ∧
      (∀ (n : ℤ) (a b : ℚ), 1 ≤ n → jvp F (v - 1) z (n - 1) = Except.ok a →
        jvp F (v + 1) z (n - 1) = Except.ok b →
        jvp F v z n = Except.ok ((a - b) / 2)) ∧
      jvp F v z 2 =
        Except.ok ((F (v - 2) z - 2 * F v z + F (v + 2) z) / 4)) ∧
    (yvp F v z 0 = Except.ok (F v z) ∧
      (∀ (n : ℤ) (a b : ℚ), 1 ≤ n → yvp F (v - 1) z (n - 1) = Except.ok a →
        yvp F (v + 1) z (n - 1) = Except.ok b →
        yvp F v z n = Except.ok ((a - b) / 2)) ∧
      yvp F v z 2 =
        Except.ok ((F (v - 2) z - 2 * F v z + F (v + 2) z) / 4)) ∧
    (kvp F v z 0 = Except.ok (F v z) ∧
      (∀ (n : ℤ) (a b : ℚ), 1 ≤ n → kvp F (v - 1) z (n - 1) = Except.ok a →
        kvp F (v + 1) z (n - 1) = Except.ok b →
        kvp F v z n = Except.ok ((a - b) / 2)) ∧
      kvp F v z 2 =
        Except.ok ((F (v - 2) z - 2 * F v z + F (v + 2) z) / 4)) ∧
    (ivp F v z 0 = Except.ok (F v z) ∧
      (∀ (n : ℤ) (a b : ℚ), 1 ≤ n → ivp F (v - 1) z (n - 1) = Except.ok a →
        ivp F (v + 1) z (n - 1) = Except.ok b →
        ivp F v z n = Except.ok ((a - b) / 2)) ∧
      ivp F v z 2 =
        Except.ok ((F (v - 2) z - 2 * F v z + F (v + 2) z) / 4)) ∧
    (h1vp F v z 0 = Except.ok (F v z) ∧
      (∀ (n : ℤ) (a b : ℚ), 1 ≤ n → h1vp F (v - 1) z (n - 1) = Except.ok a →
        h1vp F (v + 1) z (n - 1) = Except.ok b →
        h1vp F v z n = Except.ok ((a - b) / 2)) ∧
      h1vp F v z 2 =
        Except.ok ((F (v - 2) z - 2 * F v z + F (v + 2) z) / 4)) ∧
    (h2vp F v z 0 = Except.ok (F v z) ∧
      (∀ (n : ℤ) (a b : ℚ), 1 ≤ n → h2vp F (v - 1) z (n - 1) = Except.ok a →
        h2vp F (v + 1) z (n - 1) = Except.ok b →
        h2vp F v z n = Except.ok ((a - b) / 2)) ∧
      h2vp F v z 2 =
        Except.ok ((F (v - 2) z - 2 * F v z + F (v + 2) z) / 4)) :=
  ⟨derivWrap_props F v z, derivWrap_props F v z, derivWrap_props F v z,
    derivWrap_props F v z, derivWrap_props F v z, derivWrap_props F v z⟩

/-- Witness for C5: the one-step recurrence of `jvp` at base `F(v,z) = v*z`,
`v = 3`, `z = 5`, `n = 1`, with the two order-0 side conditions discharged
concretely. -/
theorem claim_C5_witness :
    jvp (fun v z => v * z) 3 5 1 = Except.ok (((10 : ℚ) - 20) / 2) := by
  exact (claim_C5 (fun v z => v * z) 3 5).1.2.1 1 10 20 (by norm_num)
    (by norm_num [jvp, derivWrap, derivRec])
    (by norm_num [jvp, derivWrap, derivRec])

/-- Claim C6: for every input `y`, `erfinv(y) = ndtri((y+1)/2)/sqrt(2)` and
`erfcinv(y) = ndtri((2-y)/2)/sqrt(2)` with `ndtri` the external
normal-quantile routine; in particular, whenever that routine has its
quantile fixed point `ndtri(1/2) = 0`, `erfinv(0)` is exactly 0. -/
theorem claim_C6 (ndtri sqrt : ℚ → ℚ) :
    (∀ y : ℚ, erfinv ndtri sqrt y = ndtri ((y + 1) / 2) / sqrt 2) ∧
      (∀ y : ℚ, erfcinv ndtri sqrt y = ndtri ((2 - y) / 2) / sqrt 2) ∧
      (ndtri (1 / 2) = 0 → erfinv ndtri sqrt 0 = 0) := by
  refine ⟨fun y => rfl, fun y => rfl, ?_⟩
  intro h
  show ndtri ((0 + 1) / 2) / sqrt 2 = 0
  rw [show ((0 : ℚ) + 1) / 2 = 1 / 2 by norm_num, h, zero_div]

/-- Witness for C6: a concrete quantile routine with the fixed point at
`1/2` makes `erfinv(0)` exactly 0. -/
theorem claim_C6_witness :
    erfinv (fun x => x - 1 / 2) (fun x => x) 0 = 0 := by
  exact (claim_C6 (fun x => x - 1 / 2) (fun x => x)).2.2 (by norm_num)

/-- Rejection half of the common "positive scalar integer" validation, for
the kelvin-style wrappers expressed through `kelvin_zeros_k`. -/
lemma kelvin_zeros_k_error {R : Type} (g : ℚ → ℤ → R) (k : ℤ) (nt : PyVal)
    (h : ¬nt.isScalar ∨ (⌊nt.val⌋ : ℚ) ≠ nt.val ∨ nt.val ≤ 0) :
    kelvin_zeros_k g k nt = Except.error DomainError.mk := by
  simp only [kelvin_zeros_k, if_pos h]

/-- Acceptance half of the common "positive scalar integer" validation. -/
lemma kelvin_zeros_k_ok {R : Type} (g : ℚ → ℤ → R) (k : ℤ) (nt : PyVal)
    (hs : nt.isScalar = true) (hi : (⌊nt.val⌋ : ℚ) = nt.val)
    (hp : 0 < nt.val) :
    kelvin_zeros_k g k nt = Except.ok (g nt.val k) := by
  rw [kelvin_zeros_k, if_neg]
  push_neg
  exact ⟨by simp [hs], hi, hp⟩

/-- Claim C7: each count-validated zero-finding wrapper (`jnjnp_zeros`,
`erf_zeros`, `ai_zeros`, `bi_zeros`, the kelvin `_zeros` family,
`y0_zeros`) rejects with `DomainError` any `nt` that is non-scalar,
non-integer-valued, or outside its declared range, for every delegate
routine — so the external routine's value never enters the result — and
accepts the boundary value exactly at the bound: `jnjnp_zeros` accepts
`nt = 1400` (returning the delegate's value at 1400) and rejects
`nt = 1401`. -/
theorem claim_C7 :
    (∀ (R : Type) (jdzo : ℤ → R) (nt : PyVal),
        (¬nt.isScalar ∨ (⌊nt.val⌋ : ℚ) ≠ nt.val ∨ nt.val > 1400) →
        jnjnp_zeros jdzo nt = Except.error DomainError.mk) ∧
    (∀ (R : Type) (jdzo : ℤ → R) (nt : PyVal),
        nt.isScalar = true → (⌊nt.val⌋ : ℚ) = nt.val → nt.val ≤ 1400 →
        jnjnp_zeros jdzo nt = Except.ok (jdzo ⌊nt.val⌋)) ∧
    (∀ (R : Type) (jdzo : ℤ → R),
        jnjnp_zeros jdzo ⟨true, 1400⟩ = Except.ok (jdzo 1400) ∧
        jnjnp_zeros jdzo ⟨true, 1401⟩ = Except.error DomainError.mk) ∧
    (∀ (R : Type) (cerzo : ℚ → R) (nt : PyVal),
        ((⌊nt.val⌋ : ℚ) ≠ nt.val ∨ nt.val ≤ 0 ∨ ¬nt.isScalar) →
        erf_zeros cerzo nt = Except.error DomainError.mk) ∧
    (∀ (R : Type) (cerzo : ℚ → R) (nt : PyVal),
        nt.isScalar = true → (⌊nt.val⌋ : ℚ) = nt.val → 0 < nt.val →
        erf_zeros cerzo nt = Except.ok (cerzo nt.val)) ∧
    (∀ (R : Type) (airyzo : ℚ → ℤ → R) (nt : PyVal),
        (¬nt.isScalar ∨ (⌊nt.val⌋ : ℚ) ≠ nt.val ∨ nt.val ≤ 0) →
        ai_zeros airyzo nt = Except.error DomainError.mk ∧
          bi_zeros airyzo nt = Except.error DomainError.mk) ∧
    (∀ (R : Type) (airyzo : ℚ → ℤ → R) (nt : PyVal),
        nt.isScalar = true → (⌊nt.val⌋ : ℚ) = nt.val → 0 < nt.val →
        ai_zeros airyzo nt = Except.ok (airyzo nt.val 1) ∧
          bi_zeros airyzo nt = Except.ok (airyzo nt.val 2)) ∧
    (∀ (R : Type) (klvnzo : ℚ → ℤ → R) (nt : PyVal),
        (¬nt.isScalar ∨ (⌊nt.val⌋ : ℚ) ≠ nt.val ∨ nt.val ≤ 0) →
        ber_zeros klvnzo nt = Except.error DomainError.mk ∧
          bei_zeros klvnzo nt = Except.error DomainError.mk ∧
          ker_zeros klvnzo nt = Except.error DomainError.mk ∧
          kei_zeros klvnzo nt = Except.error DomainError.mk) ∧
    (∀ (R : Type) (klvnzo : ℚ → ℤ → R) (nt : PyVal),
        nt.isScalar = true → (⌊nt.val⌋ : ℚ) = nt.val → 0 < nt.val →
        ber_zeros klvnzo nt = Except.ok (klvnzo nt.val 1) ∧
          bei_zeros klvnzo nt = Except.ok (klvnzo nt.val 2) ∧
          ker_zeros klvnzo nt = Except.ok (klvnzo nt.val 3) ∧
          kei_zeros klvnzo nt = Except.ok (klvnzo nt.val 4)) ∧
    (∀ (R : Type) (cyzo : ℚ → ℤ → Bool → R) (nt : PyVal) (cplx : ℚ),
        (¬nt.isScalar ∨ (⌊nt.val⌋ : ℚ) ≠ nt.val ∨ nt.val ≤ 0) →
        y0_zeros cyzo nt cplx = Except.error DomainError.mk) ∧
    (∀ (R : Type) (cyzo : ℚ → ℤ → Bool → R) (nt : PyVal) (cplx : ℚ),
        nt.isScalar = true → (⌊nt.val⌋ : ℚ) = nt.val → 0 < nt.val →
        y0_zeros cyzo nt cplx = Except.ok (cyzo nt.val 0 (cplx ≠ 1))) := by
  refine ⟨?_, ?_, ?_, ?_, ?_, ?_, ?_, ?_, ?_, ?_, ?_⟩
  · intro R jdzo nt h
    simp only [jnjnp_zeros, if_pos h]
  · intro R jdzo nt hs hi hb
    rw [jnjnp_zeros, if_neg]
    push_neg
    exact ⟨by simp [hs], hi, hb⟩
  · intro R jdzo
    constructor
    · rw [jnjnp_zeros, if_neg]
      · norm_num
      · push_neg
        refine ⟨by simp, by norm_num, by norm_num⟩
    · rw [jnjnp_zeros, if_pos]
      right; right; norm_num
  · intro R cerzo nt h
    simp only [erf_zeros, if_pos h]
  · intro R cerzo nt hs hi hp
    rw [erf_zeros, if_neg]
    push_neg
    exact ⟨hi, hp, by simp [hs]⟩
  · intro R airyzo nt h
    constructor
    · simp only [ai_zeros, if_pos h]
    · simp only [bi_zeros, if_pos h]
  · intro R airyzo nt hs hi hp
    constructor
    · rw [ai_zeros, if_neg]
      push_neg
      exact ⟨by simp [hs], hi, hp⟩
    · rw [bi_zeros, if_neg]
      push_neg
      exact ⟨by simp [hs], hi, hp⟩
  · intro R klvnzo nt h
    exact ⟨kelvin_zeros_k_error klvnzo 1 nt h, kelvin_zeros_k_error klvnzo 2 nt h,
      kelvin_zeros_k_error klvnzo 3 nt h, kelvin_zeros_k_error klvnzo 4 nt h⟩
  · intro R klvnzo nt hs hi hp
    exact ⟨kelvin_zeros_k_ok klvnzo 1 nt hs hi hp,
      kelvin_zeros_k_ok klvnzo 2 nt hs hi hp,
      kelvin_zeros_k_ok klvnzo 3 nt hs hi hp,
      kelvin_zeros_k_ok klvnzo 4 nt hs hi hp⟩
  · intro R cyzo nt cplx h
    simp only [y0_zeros, if_pos h]
  · intro R cyzo nt cplx hs hi hp
    rw [y0_zeros, if_neg]
    push_neg
    exact ⟨by simp [hs], hi, hp⟩

/-- Witness for C7: `jnjnp_zeros` rejects 1401 and accepts 1400 at the
bound, `erf_zeros` rejects the non-integer 1/2, and `ber_zeros` rejects 0,
all at a concrete delegate. -/
theorem claim_C7_witness :
    jnjnp_zeros (fun n : ℤ => n) ⟨true, 1401⟩ = Except.error DomainError.mk ∧
      jnjnp_zeros (fun n : ℤ => n) ⟨true, 1400⟩ = Except.ok 1400 ∧
      erf_zeros (fun q : ℚ => q) ⟨true, 1 / 2⟩ = Except.error DomainError.mk ∧
      ber_zeros (fun (q : ℚ) (k : ℤ) => (q, k)) ⟨true, 0⟩ =
        Except.error DomainError.mk ∧
      ber_zeros (fun (q : ℚ) (k : ℤ) => (q, k)) ⟨true, 3⟩ =
        Except.ok ((3 : ℚ), (1 : ℤ)) := by
  refine ⟨?_, ?_, ?_, ?_, ?_⟩
  · exact claim_C7.1 ℤ (fun n => n) ⟨true, 1401⟩ (by norm_num)
  · have h := claim_C7.2.1 ℤ (fun n => n) ⟨true, 1400⟩ rfl (by norm_num)
      (by norm_num)
    simpa using h
  · exact claim_C7.2.2.2.1 ℚ (fun q => q) ⟨true, 1 / 2⟩ (by norm_num)
  · exact (claim_C7.2.2.2.2.2.2.2.1 (ℚ × ℤ) (fun q k => (q, k)) ⟨true, 0⟩
      (by norm_num)).1
  · exact (claim_C7.2.2.2.2.2.2.2.2.1 (ℚ × ℤ) (fun q k => (q, k)) ⟨true, 3⟩
      rfl (by norm_num) (by norm_num)).1

/-- Claim C8: constructing the adapter fails with `ConfigurationError` when
the supplied object is not callable or is a class object; it fails with
`ConfigurationError` when an output-type tag is supplied but is not a
string; and on a successful construction with no explicit documentation
string, the adapter's documentation is the wrapped callable's own. -/
theorem claim_C8 :
    (∀ (p : PyFunc) (ot : OTypeArg) (d : Option String),
        (p.callable = false ∨ p.isClass = true) →
        general_function_init p ot d = Except.error ConfigError.notCallable) ∧
      (∀ (p : PyFunc) (d : Option String),
        p.callable = true → p.isClass = false →
        general_function_init p OTypeArg.nonString d =
          Except.error ConfigError.badOtypes) ∧
      (∀ (p : PyFunc) (ot : OTypeArg) (g : GFState),
        general_function_init p ot Option.none = Except.ok g →
        g.doc = p.doc) := by
  refine ⟨?_, ?_, ?_⟩
  · intro p ot d h
    rw [general_function_init.eq_def, if_pos]
    rcases h with h | h
    · exact Or.inl (by simp [h])
    · exact Or.inr (by simp [h])
  · intro p d hc hk
    rw [general_function_init.eq_def, if_neg]
    push_neg
    exact ⟨by simp [hc], by simp [hk]⟩
  · intro p ot g h
    rw [general_function_init.eq_def] at h
    by_cases hbad : ¬p.callable ∨ p.isClass
    · rw [if_pos hbad] at h
      exact absurd h (by simp)
    · rw [if_neg hbad] at h
      cases ot with
      | none => cases h; rfl
      | str s => cases h; rfl
      | nonString => exact absurd h (by simp)

/-- Witness for C8: a non-callable object is rejected, a class object is
rejected, a non-string type tag on a callable is rejected, and a callable
with no explicit documentation inherits its own `__doc__`. -/
theorem claim_C8_witness :
    general_function_init ⟨false, false, Option.some "f doc"⟩ OTypeArg.none
        Option.none = Except.error ConfigError.notCallable ∧
      general_function_init ⟨true, true, Option.none⟩ OTypeArg.none
        Option.none = Except.error ConfigError.notCallable ∧
      general_function_init ⟨true, false, Option.none⟩ OTypeArg.nonString
        Option.none = Except.error ConfigError.badOtypes ∧
      (⟨Option.some "f doc", ""⟩ : GFState).doc =
        (⟨true, false, Option.some "f doc"⟩ : PyFunc).doc := by
  refine ⟨?_, ?_, ?_, ?_⟩
  · exact claim_C8.1 ⟨false, false, Option.some "f doc"⟩ OTypeArg.none
      Option.none (Or.inl rfl)
  · exact claim_C8.1 ⟨true, true, Option.none⟩ OTypeArg.none Option.none
      (Or.inr rfl)
  · exact claim_C8.2.1 ⟨true, false, Option.none⟩ Option.none rfl rfl
  · exact claim_C8.2.2 ⟨true, false, Option.some "f doc"⟩ OTypeArg.none
      ⟨Option.some "f doc", ""⟩ rfl

/-- Claim C9: for every scalar `m`, `q` passing validation (`q >= 0`; `m` a
non-negative integer for the even wrapper, a positive integer for the odd
one), the mathieu coefficient wrappers compute `km = int(qm + 0.5*m)` with
`qm = 7.5 + 56.1*sqrt(q) - 134.7*q + 90.7*sqrt(q)*q` for `q <= 1` and
`qm = 17.0 + 3.1*sqrt(q) - 0.126*q + 0.0037*sqrt(q)*q` for `q > 1`, choose
the discriminant code from the parity of the truncated `m`, and always
complete with a successful result whose warning flag is set exactly when
`km` exceeds 251 (never an exception) and whose payload is the first `km`
coefficients of the delegate's output. -/
theorem claim_C9 :
    (∀ (sqrt : ℚ → ℚ) (ma : ℤ → ℚ → ℚ) (fc : ℤ → ℤ → ℚ → ℚ → List ℚ)
        (m q : PyVal), m.isScalar = true → q.isScalar = true →
        0 ≤ q.val → m.val = (⌊m.val⌋ : ℚ) → 0 ≤ m.val →
        mathieu_even_coef sqrt ma fc m q =
          Except.ok
            (decide (pyint (mathieu_qm sqrt q.val + 0.5 * m.val) > 251),
              pySlice
                (fc (if ⌊m.val⌋ % 2 ≠ 0 then 2 else 1) ⌊m.val⌋ q.val
                  (ma ⌊m.val⌋ q.val))
                (pyint (mathieu_qm sqrt q.val + 0.5 * m.val)))) ∧
      (∀ (sqrt : ℚ → ℚ) (mb : ℤ → ℚ → ℚ) (fc : ℤ → ℤ → ℚ → ℚ → List ℚ)
        (m q : PyVal), m.isScalar = true → q.isScalar = true →
        0 ≤ q.val → m.val = (⌊m.val⌋ : ℚ) → 0 < m.val →
        mathieu_odd_coef sqrt mb fc m q =
          Except.ok
            (decide (pyint (mathieu_qm sqrt q.val + 0.5 * m.val) > 251),
              pySlice
                (fc (if ⌊m.val⌋ % 2 ≠ 0 then 3 else 4) ⌊m.val⌋ q.val
                  (mb ⌊m.val⌋ q.val))
                (pyint (mathieu_qm sqrt q.val + 0.5 * m.val)))) ∧
      (∀ (sqrt : ℚ → ℚ) (q : ℚ), q ≤ 1 →
        mathieu_qm sqrt q =
          7.5 + 56.1 * sqrt q - 134.7 * q + 90.7 * sqrt q * q) ∧
      (∀ (sqrt : ℚ → ℚ) (q : ℚ), 1 < q →
        mathieu_qm sqrt q =
          17.0 + 3.1 * sqrt q - 0.126 * q + 0.0037 * sqrt q * q) := by
  refine ⟨?_, ?_, ?_, ?_⟩
  · intro sqrt ma fc m q hms hqs hq hmi hm
    rw [mathieu_even_coef, if_neg (not_not_intro ⟨by simp [hms], by simp [hqs]⟩),
      if_neg (not_lt.mpr hq), if_neg]
    push_neg
    exact ⟨hmi, hm⟩
  · intro sqrt mb fc m q hms hqs hq hmi hm
    rw [mathieu_odd_coef, if_neg (not_not_intro ⟨by simp [hms], by simp [hqs]⟩),
      if_neg (not_lt.mpr hq), if_neg]
    push_neg
    exact ⟨hmi, hm⟩
  · intro sqrt q h
    rw [mathieu_qm, if_pos h]
  · intro sqrt q h
    rw [mathieu_qm, if_neg (not_le.mpr h)]

/-- Witness for C9: at `m = 500`, `q = 4` (with a delegate square root
valued 2 at 4) the even wrapper's estimate is `km = int(272.7256) = 272`,
above the 251 threshold, and the call still completes successfully with the
warning flag set. -/
theorem claim_C9_witness :
    mathieu_even_coef (fun _ => 2) (fun _ _ => 0) (fun _ _ _ _ => [])
        ⟨true, 500⟩ ⟨true, 4⟩ = Except.ok (true, []) ∧
      pyint (mathieu_qm (fun _ => 2) 4 + 0.5 * 500) = 272 := by
  constructor
  · have h := claim_C9.1 (fun _ => 2) (fun _ _ => 0) (fun _ _ _ _ => [])
      ⟨true, 500⟩ ⟨true, 4⟩ rfl rfl (by norm_num)
      (by norm_num [Rat.floor_def]) (by norm_num)
    simp only [mathieu_qm, pyint, pySlice] at h
    norm_num [Rat.floor_def] at h
    exact h
  · norm_num [mathieu_qm, pyint, Rat.floor_def]

/-- Claim C10: for every pair of inputs, `gammaincinv(a, y)` is exactly
`gammainccinv(a, 1-y)` for the external complemented inverse, with no
validation of `a` or `y` before delegating (the identity holds for all
rational inputs and every delegate routine). -/
theorem claim_C10 (f : ℚ → ℚ → ℚ) (a y : ℚ) :
    gammaincinv f a y = f a (1 - y) := rfl

end SpecialPy
